import Mathlib

set_option maxRecDepth 100000
set_option maxHeartbeats 4000000

/-!
Verification development for the PlotingGame repository (`src/simulation.py`,
`src/config.py`).

The core under study is `Simulation`: a class that evaluates a user-typed
arithmetic expression over a fixed domain with Python's `eval` restricted to a
closed namespace (`ALLOWED_MATH` plus the variable `x`), samples it into a
curve, and runs a difficulty/scoring state machine (levels, tiers, hints, skip
penalty, win detection).

Modelling conventions used throughout:
* Python floats are idealized as exact rationals (`ℚ`); float rounding and
  overflow are out of scope.  Exceptions raised by `eval` / the math functions
  are modelled by `Except PyErr`.
* The values of the irrational math functions (`sin`, `sqrt` on non-squares,
  `pi`, ...) are not representable in `ℚ`, so the development is parametric in
  a `MathFns` bundle carrying them; every general theorem is proved for an
  arbitrary bundle, and concrete evaluations only ever use expressions whose
  outcome does not depend on the bundle's values (only, at most, on error
  conditions that the concrete bundle `mathStub` fixes exactly as CPython's
  `math` module does).
* Python re-parses the expression text on every `eval` call; the text of an
  expression is modelled by an abstract syntax tree `Expr`, and player/target
  input by `Option Expr` (`none` = text that strips to empty, which
  `_calc_points` rejects before its loop).  Identifier lookup inside `eval`
  (including unknown names, which raise `NameError` at evaluation time) is
  modelled faithfully in `lookupName` / the `call` case of `evalE`.
-/

namespace PlotingGame

/-- Kinds of Python exceptions that the restricted `eval` of
`Simulation._calc_points` can raise; they are all caught alike by the
`except Exception` handler, which skips the sample point. -/
inductive PyErr where
  | nameError
  | zeroDivErr
  | valueErr
  | overflowErr
  | typeErr
  deriving DecidableEq, Repr

/-- The non-rational-valued primitives of Python's `math` module that
`ALLOWED_MATH` (config.py lines 94-126) exposes, abstracted as a parameter:
their real values are irrational in general and cannot live in `ℚ`.
`powf` is `a ** b` for a non-integer exponent `b` (Python returns a complex
number for a negative base, of which `_calc_points` keeps the real part, so it
is numeric-valued or an error either way). -/
structure MathFns where
  sin : ℚ → Except PyErr ℚ
  cos : ℚ → Except PyErr ℚ
  tan : ℚ → Except PyErr ℚ
  asin : ℚ → Except PyErr ℚ
  acos : ℚ → Except PyErr ℚ
  atan : ℚ → Except PyErr ℚ
  sinh : ℚ → Except PyErr ℚ
  cosh : ℚ → Except PyErr ℚ
  tanh : ℚ → Except PyErr ℚ
  sqrt : ℚ → Except PyErr ℚ
  log : ℚ → Except PyErr ℚ
  log10 : ℚ → Except PyErr ℚ
  exp : ℚ → Except PyErr ℚ
  powf : ℚ → ℚ → Except PyErr ℚ
  pi : ℚ
  e : ℚ

/-- The keys of the `ALLOWED_MATH` dictionary (config.py lines 94-126), in
source order. -/
def ALLOWED_MATH_KEYS : List String :=
  ["sin", "cos", "tan", "asin", "acos", "atan",
   "sinh", "cosh", "tanh",
   "sqrt", "log", "log10", "exp",
   "abs", "floor", "ceil", "round",
   "pow",
   "pi", "e"]

/-- The names bound in the `ctx` namespace handed to `eval` by
`_calc_points` (simulation.py lines 124-125): `ALLOWED_MATH` plus `x`. -/
def registeredNames : List String := "x" :: ALLOWED_MATH_KEYS

/-- Abstract syntax of the arithmetic expressions `eval` can receive from this
game: numeric literals, names, unary minus, the binary operators
`+ - * / % **`, and function calls with one or two arguments (every callable
in `ALLOWED_MATH` has arity one or two; a call with any other argument count
raises `TypeError`, which behaves like any other per-point failure).  A `name`
not in `registeredNames` models a reference to an unregistered identifier:
`eval` raises `NameError` for it. -/
inductive Expr where
  | num (q : ℚ)
  | name (s : String)
  | neg (a : Expr)
  | add (a b : Expr)
  | sub (a b : Expr)
  | mul (a b : Expr)
  | div (a b : Expr)
  | mod (a b : Expr)
  | pow (a b : Expr)
  | call (f : String) (a : Expr)
  | call2 (f : String) (a b : Expr)
  deriving DecidableEq

/-- Python's built-in `round` (banker's rounding, half to even). -/
def pyRound (q : ℚ) : ℚ :=
  let f : ℤ := ⌊q⌋
  let r : ℚ := q - f
  if r < 1/2 then (f : ℚ)
  else if 1/2 < r then (f : ℚ) + 1
  else if f % 2 = 0 then (f : ℚ) else (f : ℚ) + 1

/-- Python's `%` on numbers: result has the sign of the divisor,
`a % b = a - b * floor(a / b)` (defined only for `b ≠ 0`). -/
def pyMod (a b : ℚ) : ℚ := a - b * (⌊a / b⌋ : ℤ)

/-- Python's `**`: for an integer exponent it is exact integer power (with
`0 ** negative` raising `ZeroDivisionError`); for a fractional exponent the
result is irrational/complex in general and is delegated to `MathFns.powf`. -/
def powSem (L : MathFns) (a b : ℚ) : Except PyErr ℚ :=
  if b.den = 1 then
    if a = 0 ∧ b.num < 0 then .error .zeroDivErr
    else .ok (a ^ b.num)
  else L.powf a b

/-- Name lookup in the `ctx` namespace of `eval`: `x` is the sample abscissa,
`pi` and `e` are constants, any other `ALLOWED_MATH` key is bound to a
function object (a non-numeric value, whose every numeric use — including the
`math.isnan` check of `_calc_points` lines 137-141 — raises `TypeError`; we
collapse that to an immediate `TypeError`, which is observationally the same
skip), and every other name raises `NameError`. -/
def lookupName (L : MathFns) (x : ℚ) (s : String) : Except PyErr ℚ :=
  if s = "x" then .ok x
  else if s = "pi" then .ok L.pi
  else if s = "e" then .ok L.e
  else if s ∈ ALLOWED_MATH_KEYS then .error .typeErr
  else .error .nameError

/-- Application of a registered one-argument callable. Non-callable constants
(`pi`, `e`, `x`) and arity mismatches raise `TypeError`, as in Python. -/
def applyFn1 (L : MathFns) (f : String) (v : ℚ) : Except PyErr ℚ :=
  match f with
  | "sin" => L.sin v
  | "cos" => L.cos v
  | "tan" => L.tan v
  | "asin" => L.asin v
  | "acos" => L.acos v
  | "atan" => L.atan v
  | "sinh" => L.sinh v
  | "cosh" => L.cosh v
  | "tanh" => L.tanh v
  | "sqrt" => L.sqrt v
  | "log" => L.log v
  | "log10" => L.log10 v
  | "exp" => L.exp v
  | "abs" => .ok |v|
  | "floor" => .ok ((⌊v⌋ : ℤ) : ℚ)
  | "ceil" => .ok ((⌈v⌉ : ℤ) : ℚ)
  | "round" => .ok (pyRound v)
  | _ => .error .typeErr

/-- Application of a registered two-argument callable: `pow(a, b)` is `a ** b`;
`math.log(a, base)` is `log(a)/log(base)` (base 1 divides by zero);
`round(q, ndigits)` rounds at a decimal digit for an integral `ndigits`.
Everything else (a one-argument function given two arguments, or a constant
called) raises `TypeError`. -/
def applyFn2 (L : MathFns) (f : String) (a b : ℚ) : Except PyErr ℚ :=
  match f with
  | "pow" => powSem L a b
  | "log" =>
    match L.log a, L.log b with
    | .ok la, .ok lb => if lb = 0 then .error .zeroDivErr else .ok (la / lb)
    | .error er, _ => .error er
    | _, .error er => .error er
  | "round" =>
    if b.den = 1 then .ok (pyRound (a * 10 ^ b.num) / 10 ^ b.num)
    else .error .typeErr
  | _ => .error .typeErr

/-- Shallow embedding of one `eval(expr, {"__builtins__": {}}, ctx)` call of
`_calc_points` (simulation.py line 128), for the sample abscissa `x`.
A complex intermediate value can only arise from `powf`, whose real part is
what `MathFns.powf` returns (matching lines 133-134, which keep `val_y.real`).
For a call, Python resolves the callee name first (an unknown callee raises
`NameError` before the arguments are evaluated), then evaluates the arguments
left to right, then applies. -/
def evalE (L : MathFns) (x : ℚ) : Expr → Except PyErr ℚ
  | .num q => .ok q
  | .name s => lookupName L x s
  | .neg a =>
    match evalE L x a with
    | .ok v => .ok (-v)
    | .error er => .error er
  | .add a b =>
    match evalE L x a with
    | .ok va =>
      match evalE L x b with
      | .ok vb => .ok (va + vb)
      | .error er => .error er
    | .error er => .error er
  | .sub a b =>
    match evalE L x a with
    | .ok va =>
      match evalE L x b with
      | .ok vb => .ok (va - vb)
      | .error er => .error er
    | .error er => .error er
  | .mul a b =>
    match evalE L x a with
    | .ok va =>
      match evalE L x b with
      | .ok vb => .ok (va * vb)
      | .error er => .error er
    | .error er => .error er
  | .div a b =>
    match evalE L x a with
    | .ok va =>
      match evalE L x b with
      | .ok vb => if vb = 0 then .error .zeroDivErr else .ok (va / vb)
      | .error er => .error er
    | .error er => .error er
  | .mod a b =>
    match evalE L x a with
    | .ok va =>
      match evalE L x b with
      | .ok vb => if vb = 0 then .error .zeroDivErr else .ok (pyMod va vb)
      | .error er => .error er
    | .error er => .error er
  | .pow a b =>
    match evalE L x a with
    | .ok va =>
      match evalE L x b with
      | .ok vb => powSem L va vb
      | .error er => .error er
    | .error er => .error er
  | .call f a =>
    if f ∈ registeredNames then
      match evalE L x a with
      | .ok v => applyFn1 L f v
      | .error er => .error er
    else .error .nameError
  | .call2 f a b =>
    if f ∈ registeredNames then
      match evalE L x a with
      | .ok va =>
        match evalE L x b with
        | .ok vb => applyFn2 L f va vb
        | .error er => .error er
      | .error er => .error er
    else .error .nameError

/-- Whether one `eval` call succeeded (no exception was raised and the result
is a finite real — in this idealized model every `ok` value is a finite
rational). -/
def isOkB : Except PyErr ℚ → Bool
  | .ok _ => true
  | .error _ => false

/-- The abscissa of sample `i`: `x_range[0] + i * step`, with
`step = (x_range[1] - x_range[0]) / nb_points` (simulation.py lines 118-122). -/
def sampleX (xr : ℚ × ℚ) (n : ℕ) (i : ℕ) : ℚ :=
  xr.1 + (i : ℚ) * ((xr.2 - xr.1) / (n : ℚ))

/-- What the loop body of `_calc_points` contributes for sample `i`: the point
`(x_i, y)` if `eval` succeeded (with a finite value — in this idealized model
every `ok` value is a finite rational), nothing if the point was skipped. -/
def samplePoint (L : MathFns) (xr : ℚ × ℚ) (n : ℕ) (e : Expr) (i : ℕ) :
    Option (ℚ × ℚ) :=
  match evalE L (sampleX xr n i) e with
  | .ok v => some (sampleX xr n i, v)
  | .error _ => none

/-- Return value of `_calc_points`: `(pts, valid, mn, mx)`. -/
structure CalcOut where
  pts : List (ℚ × ℚ)
  valid : Bool
  mn : ℚ
  mx : ℚ
  deriving Repr, DecidableEq

/-- Accumulator of the sampling loop of `_calc_points`: the points collected
so far and the running min/max, where `none` models the `float('inf')` /
`float('-inf')` sentinels of line 119. -/
structure ScanSt where
  pts : List (ℚ × ℚ)
  mn : Option ℚ
  mx : Option ℚ

/-- One iteration of the loop of `_calc_points` (simulation.py lines 121-147):
evaluate at `x_i`; on any exception skip the point; otherwise append the point
and update the running min (`if val_y < mn`) and max (`if val_y > mx`). -/
def scanStep (L : MathFns) (e : Expr) (xr : ℚ × ℚ) (n : ℕ)
    (acc : ScanSt) (i : ℕ) : ScanSt :=
  let vx := sampleX xr n i
  match evalE L vx e with
  | .error _ => acc
  | .ok vy =>
    { pts := acc.pts ++ [(vx, vy)]
      mn := match acc.mn with
        | none => some vy
        | some m => if vy < m then some vy else some m
      mx := match acc.mx with
        | none => some vy
        | some m => if m < vy then some vy else some m }

/-- The epilogue of `_calc_points` (simulation.py lines 149-156): `valid` is
`mn != float('inf')`; an invalid result falls back to the range `(-5, 5)`
(which never triggers the widening, since `-5 != 5`); a degenerate `mn == mx`
range is widened by `±1`. -/
def finishScan (st : ScanSt) : CalcOut :=
  match st.mn, st.mx with
  | some mn, some mx =>
    if mn = mx then ⟨st.pts, true, mn - 1, mx + 1⟩
    else ⟨st.pts, true, mn, mx⟩
  | _, _ => ⟨st.pts, false, -5, 5⟩

/-- `Simulation._calc_points` (simulation.py lines 106-156).  `none` input
models text that strips to the empty string (lines 113-115). -/
def calc_points (L : MathFns) (xr : ℚ × ℚ) (n : ℕ) (src : Option Expr) :
    CalcOut :=
  match src with
  | none => ⟨[], false, -5, 5⟩
  | some e =>
    finishScan ((List.range (n + 1)).foldl (scanStep L e xr n) ⟨[], none, none⟩)

/-- How many times `_calc_points` passes the expression to the evaluator
(`eval`, line 128): the blank-input early return (lines 113-115) never reaches
the loop; otherwise the `eval` call is the first statement of the `try` block
and is executed once in each of the `nb_points + 1` iterations, whatever the
expression contains. -/
def evalAttempts (n : ℕ) (src : Option Expr) : ℕ :=
  match src with
  | none => 0
  | some _ => n + 1

/-- `Y_RANGE_MARGIN` (config.py line 179): 20% margin added to the y-range. -/
def Y_RANGE_MARGIN : ℚ := 2/10

/-- `SKIP_PENALTY` (config.py line 172). -/
def SKIP_PENALTY : ℤ := 50

/-- `INITIAL_HINTS` (config.py line 174). -/
def INITIAL_HINTS : ℤ := 3

/-- `WIN_ERROR_THRESHOLD` (config.py line 175): default win threshold. -/
def WIN_ERROR_THRESHOLD : ℚ := 5/100

/-- One value of the `DIFFICULTY_LEVELS` dict (config.py lines 164-169).
`threshold = none` models `float('inf')` (the expert tier). -/
structure DiffSettings where
  threshold : Option ℕ
  points : ℤ
  error_tolerance : ℚ

/-- `DIFFICULTY_LEVELS` (config.py lines 164-169), in dict insertion order. -/
def DIFFICULTY_LEVELS : List (String × DiffSettings) :=
  [("easy", ⟨some 3, 100, 5/100⟩),
   ("medium", ⟨some 6, 200, 4/100⟩),
   ("hard", ⟨some 10, 300, 3/100⟩),
   ("expert", ⟨none, 500, 2/100⟩)]

/-- `level <= settings['threshold']`, where a `none` threshold is
`float('inf')` and every integer is `<=` it. -/
def leThreshold (level : ℕ) (t : Option ℕ) : Bool :=
  match t with
  | none => true
  | some m => level ≤ m

/-- `Simulation._get_difficulty_for_level` (simulation.py lines 63-68): the
first tier, in dict order, whose threshold the level does not exceed, falling
back to `'expert'`. -/
def get_difficulty_for_level (level : ℕ) : String :=
  go DIFFICULTY_LEVELS
where
  /-- The `for` loop of `_get_difficulty_for_level`. -/
  go : List (String × DiffSettings) → String
  | [] => "expert"
  | (d, s) :: rest => if leThreshold level s.threshold then d else go rest

/-- `DIFFICULTY_LEVELS.get(difficulty, {}).get('error_tolerance',
WIN_ERROR_THRESHOLD)` (simulation.py line 210). -/
def error_tolerance_of (d : String) : ℚ :=
  match DIFFICULTY_LEVELS.find? (fun p => p.1 = d) with
  | some p => p.2.error_tolerance
  | none => WIN_ERROR_THRESHOLD

/-- `DIFFICULTY_LEVELS.get(difficulty, {}).get('points', 100)`
(simulation.py line 215). -/
def points_of (d : String) : ℤ :=
  match DIFFICULTY_LEVELS.find? (fun p => p.1 = d) with
  | some p => p.2.points
  | none => 100

/-- A function template: the formula text the template lambda returns
(config.py lines 129-160) together with the abstract syntax tree that Python
builds whenever `eval` compiles that text.  The text is what `get_hint`
searches; the tree is what evaluation runs. -/
structure Tmpl where
  text : String
  tree : Expr

/-- `FUNCTION_TEMPLATES` (config.py lines 129-160).  The lookup
`FUNCTION_TEMPLATES[difficulty]` is only ever made with one of the four tier
names, so the catch-all `[]` branch is unreachable in the simulation. -/
def FUNCTION_TEMPLATES (d : String) : List Tmpl :=
  if d = "easy" then
    [⟨"sin(x)", .call "sin" (.name "x")⟩,
     ⟨"cos(x)", .call "cos" (.name "x")⟩,
     ⟨"x", .name "x"⟩,
     ⟨"x ** 2", .pow (.name "x") (.num 2)⟩]
  else if d = "medium" then
    [⟨"2 * sin(x)", .mul (.num 2) (.call "sin" (.name "x"))⟩,
     ⟨"cos(x * 2)", .call "cos" (.mul (.name "x") (.num 2))⟩,
     ⟨"x ** 2 - 3", .sub (.pow (.name "x") (.num 2)) (.num 3)⟩,
     ⟨"sqrt(x + 1)", .call "sqrt" (.add (.name "x") (.num 1))⟩,
     ⟨"log(x + 1)", .call "log" (.add (.name "x") (.num 1))⟩,
     ⟨"sin(x) + cos(x)", .add (.call "sin" (.name "x")) (.call "cos" (.name "x"))⟩]
  else if d = "hard" then
    [⟨"sin(x) * cos(x)", .mul (.call "sin" (.name "x")) (.call "cos" (.name "x"))⟩,
     ⟨"exp(x / 5) - 2", .sub (.call "exp" (.div (.name "x") (.num 5))) (.num 2)⟩,
     ⟨"sin(x ** 2)", .call "sin" (.pow (.name "x") (.num 2))⟩,
     ⟨"tan(x / 2)", .call "tan" (.div (.name "x") (.num 2))⟩,
     ⟨"sqrt(abs(sin(x * 3)))", .call "sqrt" (.call "abs" (.call "sin" (.mul (.name "x") (.num 3))))⟩,
     ⟨"log(abs(x) + 1) * sin(x)",
       .mul (.call "log" (.add (.call "abs" (.name "x")) (.num 1))) (.call "sin" (.name "x"))⟩]
  else if d = "expert" then
    [⟨"sinh(x / 2)", .call "sinh" (.div (.name "x") (.num 2))⟩,
     ⟨"sin(x) / (x + 1)", .div (.call "sin" (.name "x")) (.add (.name "x") (.num 1))⟩,
     ⟨"exp(-x) * sin(x * 3)",
       .mul (.call "exp" (.neg (.name "x"))) (.call "sin" (.mul (.name "x") (.num 3)))⟩,
     ⟨"atan(x) * 2", .mul (.call "atan" (.name "x")) (.num 2)⟩,
     ⟨"floor(sin(x * 3)) + x / 5",
       .add (.call "floor" (.call "sin" (.mul (.name "x") (.num 3)))) (.div (.name "x") (.num 5))⟩,
     ⟨"cosh(x / 3) - 2", .sub (.call "cosh" (.div (.name "x") (.num 3))) (.num 2)⟩]
  else []

/-- Python's substring test `pat in s` for nonempty `pat`, on character
lists. -/
def subList (p : List Char) : List Char → Bool
  | [] => p.isPrefixOf []
  | c :: rest => p.isPrefixOf (c :: rest) || subList p rest

/-- Python's substring test `pat in s` on strings. -/
def strIn (pat s : String) : Bool := subList pat.toList s.toList

/-- The generic fallback hint (simulation.py line 104). -/
def FALLBACK_HINT : String := "Try basic functions like sin, cos, or polynomials"

/-- The `hints` list built by `Simulation.get_hint` from the target formula
text (simulation.py lines 78-100), in source order. -/
def hintsFor (f : String) : List String :=
  (if strIn "sin" f && !strIn "sinh" f then ["Uses sine function"] else []) ++
  (if strIn "cos" f && !strIn "cosh" f then ["Uses cosine function"] else []) ++
  (if strIn "tan" f && !strIn "tanh" f then ["Uses tangent function"] else []) ++
  (if strIn "sinh" f then ["Uses hyperbolic sine"] else []) ++
  (if strIn "cosh" f then ["Uses hyperbolic cosine"] else []) ++
  (if strIn "tanh" f then ["Uses hyperbolic tangent"] else []) ++
  (if strIn "sqrt" f then ["Uses square root"] else []) ++
  (if strIn "log" f then ["Uses logarithm"] else []) ++
  (if strIn "exp" f then ["Uses exponential"] else []) ++
  (if strIn "**" f then ["Uses power/exponentiation"] else []) ++
  (if strIn "*" f && !strIn "**" f then ["Uses multiplication"] else [])

/-- The mutable state of a `Simulation` object (simulation.py lines 19-45).
`target_src` is the abstract syntax tree of `target_formula` (Python keeps
only the text and re-parses it inside every `eval` call; the two fields
together model that one string).  `text_input` is the player text, modelled
as `none` when it strips to empty. -/
structure Simulation where
  x_range : ℚ × ℚ
  nb_points : ℕ
  target_formula : String
  target_src : Option Expr
  target_pts : List (ℚ × ℚ)
  player_pts : List (ℚ × ℚ)
  y_min : ℚ
  y_max : ℚ
  is_valid : Bool
  is_win : Bool
  text_input : Option Expr
  current_error : Option ℚ
  difficulty : String
  level : ℕ
  score : ℤ
  hints_available : ℤ
  deriving DecidableEq

/-- `Simulation._calc_target` (simulation.py lines 158-167): recompute the
target points from the target formula; if the result is invalid, return with
no mutation at all; otherwise store the points and widen the observed range by
`Y_RANGE_MARGIN` of the span (`span = mx - mn or 1.0`). -/
def calc_target (L : MathFns) (s : Simulation) : Simulation :=
  let r := calc_points L s.x_range s.nb_points s.target_src
  if r.valid then
    let d := r.mx - r.mn
    let span := if d = 0 then 1 else d
    { s with target_pts := r.pts,
             y_min := r.mn - span * Y_RANGE_MARGIN,
             y_max := r.mx + span * Y_RANGE_MARGIN }
  else s

/-- `span = max(self.y_max - self.y_min, 1e-6)` (simulation.py line 197). -/
def winSpan (s : Simulation) : ℚ := max (s.y_max - s.y_min) (1/1000000)

/-- The error loop of `_check_win` (simulation.py lines 199-206): sum
`abs(py - ty) / span` by index over the first `n` points of each list, then
divide by `n`. -/
def winAvgErr (s : Simulation) (n : ℕ) : ℚ :=
  ((List.range n).foldl
    (fun t i =>
      t + |(s.player_pts.getD i (0, 0)).2 - (s.target_pts.getD i (0, 0)).2| / winSpan s)
    0) / (n : ℚ)

/-- `Simulation._check_win` (simulation.py lines 183-217): with both point
lists nonempty, average `|player_y - target_y| / span` over the first
`min` of the lengths; set the win flag iff that average is strictly below the
stored difficulty's tolerance, and on a win add the difficulty's points to the
score and advance the level. -/
def check_win (s : Simulation) : Simulation :=
  if s.target_pts.isEmpty || s.player_pts.isEmpty then
    { s with is_win := false, current_error := none }
  else
    let n := min s.target_pts.length s.player_pts.length
    if n = 0 then { s with is_win := false, current_error := none }
    else
      let avg_err := winAvgErr s n
      let tol := error_tolerance_of s.difficulty
      let s1 := { s with current_error := some avg_err,
                         is_win := decide (avg_err < tol) }
      if avg_err < tol then
        { s1 with score := s1.score + points_of s.difficulty, level := s1.level + 1 }
      else s1

/-- `Simulation.update_player` (simulation.py lines 169-181). -/
def update_player (L : MathFns) (text : Option Expr) (s : Simulation) :
    Simulation :=
  let s0 := { s with text_input := text }
  let r := calc_points L s0.x_range s0.nb_points text
  let s1 := { s0 with is_valid := r.valid }
  if r.valid then check_win { s1 with player_pts := r.pts }
  else { s1 with player_pts := [], is_win := false, current_error := none }

/-- The template `random.choice(templates)` picks in `new_level`
(simulation.py lines 52-53), with the random draw resolved by an index
`choice`: any index into the current tier's template list (the list is
nonempty for each of the four tiers, so the `getD` default is never
consulted). -/
def pickTmpl (lvl choice : ℕ) : Tmpl :=
  let templates := FUNCTION_TEMPLATES (get_difficulty_for_level lvl)
  templates.getD (choice % templates.length) ⟨"x", .name "x"⟩

/-- The field mutations of `Simulation.new_level` (simulation.py lines 50-57)
that precede its `_calc_target()` call. -/
def resetForLevel (choice : ℕ) (s : Simulation) : Simulation :=
  let t := pickTmpl s.level choice
  { s with difficulty := get_difficulty_for_level s.level,
           target_formula := t.text,
           target_src := some t.tree,
           text_input := none,
           player_pts := [],
           is_win := false,
           current_error := none }

/-- `Simulation.new_level` (simulation.py lines 47-61). -/
def new_level (L : MathFns) (choice : ℕ) (s : Simulation) : Simulation :=
  calc_target L (resetForLevel choice s)

/-- `Simulation.get_hint` (simulation.py lines 70-104): with no hints left
return `None` and change nothing; otherwise decrement the budget and return
`random.choice(hints)` (resolved by the index `choice`) from the applicable
facts, or the generic fallback if none applies. -/
def get_hint (choice : ℕ) (s : Simulation) : Option String × Simulation :=
  if s.hints_available ≤ 0 then (none, s)
  else
    let s1 := { s with hints_available := s.hints_available - 1 }
    let hs := hintsFor s.target_formula
    if hs.isEmpty then (some FALLBACK_HINT, s1)
    else (some (hs.getD (choice % hs.length) FALLBACK_HINT), s1)

/-- `Simulation.skip_level` (simulation.py lines 219-222). -/
def skip_level (L : MathFns) (choice : ℕ) (s : Simulation) : Simulation :=
  new_level L choice { s with score := max 0 (s.score - SKIP_PENALTY) }

/-- `Simulation.__init__` (simulation.py lines 19-45): the field
initializations followed by the `new_level()` call. -/
def Simulation.init (L : MathFns) (choice : ℕ) : Simulation :=
  new_level L choice
    { x_range := (0, 10)
      nb_points := 400
      target_formula := ""
      target_src := none
      target_pts := []
      player_pts := []
      y_min := -5
      y_max := 5
      is_valid := true
      is_win := false
      text_input := none
      current_error := none
      difficulty := "easy"
      level := 1
      score := 0
      hints_available := INITIAL_HINTS }

/-- The states reachable from a fresh `Simulation()` by any sequence of the
public operations (set player text / update, start new level, skip, hint),
for a fixed math library `L`; the `ℕ` arguments resolve the `random.choice`
calls. -/
inductive Reachable (L : MathFns) : Simulation → Prop
  | init (c : ℕ) : Reachable L (Simulation.init L c)
  | new_level (c : ℕ) {s : Simulation} :
      Reachable L s → Reachable L (new_level L c s)
  | update_player (t : Option Expr) {s : Simulation} :
      Reachable L s → Reachable L (update_player L t s)
  | skip_level (c : ℕ) {s : Simulation} :
      Reachable L s → Reachable L (skip_level L c s)
  | get_hint (c : ℕ) {s : Simulation} :
      Reachable L s → Reachable L (get_hint c s).2

/-- A concrete `MathFns` bundle used to instantiate general theorems at
concrete inputs.  Error conditions are exactly those of CPython's `math`
module (`sqrt`, `log`, `log10` raise `ValueError` outside their real domain,
`asin`/`acos` raise `ValueError` outside `[-1, 1]`, `0 ** negative` raises
`ZeroDivisionError`); successful values of these irrational-valued functions
are not representable in `ℚ` and are returned as `0` here — no theorem below
depends on any of those values, only (at most) on the error conditions. -/
def mathStub : MathFns where
  sin _ := .ok 0
  cos _ := .ok 0
  tan _ := .ok 0
  asin q := if q < -1 ∨ 1 < q then .error .valueErr else .ok 0
  acos q := if q < -1 ∨ 1 < q then .error .valueErr else .ok 0
  atan _ := .ok 0
  sinh _ := .ok 0
  cosh _ := .ok 0
  tanh _ := .ok 0
  sqrt q := if q < 0 then .error .valueErr else .ok 0
  log q := if q ≤ 0 then .error .valueErr else .ok 0
  log10 q := if q ≤ 0 then .error .valueErr else .ok 0
  exp _ := .ok 0
  powf a b := if a = 0 ∧ b < 0 then .error .zeroDivErr else .ok 0
  pi := 0
  e := 0

/-! ### Helper lemmas about the sampling loop -/

theorem samplePoint_eq_none {L : MathFns} {xr : ℚ × ℚ} {n : ℕ} {e : Expr}
    {i : ℕ} (h : isOkB (evalE L (sampleX xr n i) e) = false) :
    samplePoint L xr n e i = none := by
  unfold samplePoint
  cases he : evalE L (sampleX xr n i) e with
  | ok v => rw [he] at h; simp [isOkB] at h
  | error er => rfl

theorem samplePoint_isSome {L : MathFns} {xr : ℚ × ℚ} {n : ℕ} {e : Expr}
    {i : ℕ} :
    (samplePoint L xr n e i).isSome = isOkB (evalE L (sampleX xr n i) e) := by
  unfold samplePoint
  cases he : evalE L (sampleX xr n i) e <;> simp [isOkB]

theorem scan_pts (L : MathFns) (e : Expr) (xr : ℚ × ℚ) (n : ℕ) :
    ∀ (l : List ℕ) (acc : ScanSt),
      (l.foldl (scanStep L e xr n) acc).pts
        = acc.pts ++ l.filterMap (samplePoint L xr n e) := by
  intro l
  induction l with
  | nil => intro acc; simp
  | cons i l ih =>
    intro acc
    rw [List.foldl_cons, ih, List.filterMap_cons]
    cases h : evalE L (sampleX xr n i) e with
    | ok v => simp [scanStep, samplePoint, h]
    | error er => simp [scanStep, samplePoint, h]

theorem scan_mn (L : MathFns) (e : Expr) (xr : ℚ × ℚ) (n : ℕ) :
    ∀ (l : List ℕ) (acc : ScanSt),
      ((l.foldl (scanStep L e xr n) acc).mn).isSome
        = (acc.mn.isSome || l.any fun i => (samplePoint L xr n e i).isSome) := by
  intro l
  induction l with
  | nil => intro acc; simp
  | cons i l ih =>
    intro acc
    rw [List.foldl_cons, ih, List.any_cons]
    cases h : evalE L (sampleX xr n i) e with
    | ok v =>
      cases hacc : acc.mn with
      | none => simp [scanStep, samplePoint, h, hacc]
      | some m => by_cases hv : v < m <;> simp [scanStep, samplePoint, h, hacc, hv]
    | error er => simp [scanStep, samplePoint, h]

theorem scan_mx (L : MathFns) (e : Expr) (xr : ℚ × ℚ) (n : ℕ) :
    ∀ (l : List ℕ) (acc : ScanSt),
      ((l.foldl (scanStep L e xr n) acc).mx).isSome
        = (acc.mx.isSome || l.any fun i => (samplePoint L xr n e i).isSome) := by
  intro l
  induction l with
  | nil => intro acc; simp
  | cons i l ih =>
    intro acc
    rw [List.foldl_cons, ih, List.any_cons]
    cases h : evalE L (sampleX xr n i) e with
    | ok v =>
      cases hacc : acc.mx with
      | none => simp [scanStep, samplePoint, h, hacc]
      | some m => by_cases hv : m < v <;> simp [scanStep, samplePoint, h, hacc, hv]
    | error er => simp [scanStep, samplePoint, h]

theorem finishScan_invalid (st : ScanSt) (h : st.mn.isSome = false) :
    finishScan st = ⟨st.pts, false, -5, 5⟩ := by
  unfold finishScan
  rcases hmn : st.mn with _ | mn
  · rfl
  · rw [hmn] at h
    simp at h

theorem finishScan_pts (st : ScanSt) : (finishScan st).pts = st.pts := by
  unfold finishScan
  rcases hmn : st.mn with _ | mn <;> rcases hmx : st.mx with _ | mx <;> simp
  by_cases h : mn = mx <;> simp [h]

theorem finishScan_valid (st : ScanSt) :
    (finishScan st).valid = (st.mn.isSome && st.mx.isSome) := by
  unfold finishScan
  rcases hmn : st.mn with _ | mn <;> rcases hmx : st.mx with _ | mx <;> simp
  by_cases h : mn = mx <;> simp [h]

theorem calc_points_pts (L : MathFns) (xr : ℚ × ℚ) (n : ℕ) (e : Expr) :
    (calc_points L xr n (some e)).pts
      = (List.range (n + 1)).filterMap (samplePoint L xr n e) := by
  show (finishScan _).pts = _
  rw [finishScan_pts, scan_pts]
  simp

theorem calc_points_valid_iff (L : MathFns) (xr : ℚ × ℚ) (n : ℕ) (e : Expr) :
    (calc_points L xr n (some e)).valid = true
      ↔ ∃ i < n + 1, isOkB (evalE L (sampleX xr n i) e) = true := by
  show (finishScan _).valid = true ↔ _
  rw [finishScan_valid, scan_mn, scan_mx]
  simp only [Option.isSome_none, Bool.false_or, Bool.and_self]
  rw [List.any_eq_true]
  constructor
  · rintro ⟨i, hmem, hsome⟩
    exact ⟨i, List.mem_range.mp hmem, by rw [← samplePoint_isSome]; exact hsome⟩
  · rintro ⟨i, hlt, hok⟩
    exact ⟨i, List.mem_range.mpr hlt, by rw [samplePoint_isSome]; exact hok⟩

theorem calc_points_invalid (L : MathFns) (xr : ℚ × ℚ) (n : ℕ) (e : Expr)
    (h : ∀ i < n + 1, isOkB (evalE L (sampleX xr n i) e) = false) :
    calc_points L xr n (some e) = ⟨[], false, -5, 5⟩ := by
  have hall : ∀ i ∈ List.range (n + 1), samplePoint L xr n e i = none := by
    intro i hi
    exact samplePoint_eq_none (h i (List.mem_range.mp hi))
  have hmn : (((List.range (n + 1)).foldl (scanStep L e xr n)
      ⟨[], none, none⟩).mn).isSome = false := by
    rw [scan_mn]
    simp only [Option.isSome_none, Bool.false_or]
    rw [List.any_eq_false]
    intro i hi
    rw [hall i hi]
    simp
  have hpts : ((List.range (n + 1)).foldl (scanStep L e xr n)
      ⟨[], none, none⟩).pts = [] := by
    rw [scan_pts]
    rw [List.nil_append, List.filterMap_eq_nil_iff]
    exact hall
  show finishScan _ = _
  rw [finishScan_invalid _ hmn, hpts]

/-! ### Helper lemmas about the scoring state machine -/

theorem foldl_add_range (f : ℕ → ℚ) (n : ℕ) :
    (List.range n).foldl (fun t i => t + f i) 0 = ∑ i ∈ Finset.range n, f i := by
  induction n with
  | zero => simp
  | succ m ih =>
    rw [List.range_succ, List.foldl_append, List.foldl_cons, List.foldl_nil, ih,
      Finset.sum_range_succ]

theorem getD_mod_mem {α : Type} (l : List α) (h : l ≠ []) (c : ℕ) (d : α) :
    l.getD (c % l.length) d ∈ l := by
  have hlen : 0 < l.length := List.length_pos.mpr h
  have hlt : c % l.length < l.length := Nat.mod_lt _ hlen
  rw [List.getD_eq_getElem l d hlt]
  exact List.getElem_mem hlt

theorem calc_target_shape (L : MathFns) (s : Simulation) :
    calc_target L s = s ∨
    ∃ p a b, calc_target L s = { s with target_pts := p, y_min := a, y_max := b } := by
  unfold calc_target
  dsimp only
  split
  · right; exact ⟨_, _, _, rfl⟩
  · left; rfl

theorem get_difficulty_mem (lvl : ℕ) :
    get_difficulty_for_level lvl = "easy" ∨ get_difficulty_for_level lvl = "medium" ∨
    get_difficulty_for_level lvl = "hard" ∨ get_difficulty_for_level lvl = "expert" := by
  unfold get_difficulty_for_level DIFFICULTY_LEVELS
  simp only [get_difficulty_for_level.go]
  split
  · exact Or.inl rfl
  · split
    · exact Or.inr (Or.inl rfl)
    · split
      · exact Or.inr (Or.inr (Or.inl rfl))
      · split
        · exact Or.inr (Or.inr (Or.inr rfl))
        · exact Or.inr (Or.inr (Or.inr rfl))

theorem templates_ne_nil (lvl : ℕ) :
    FUNCTION_TEMPLATES (get_difficulty_for_level lvl) ≠ [] := by
  rcases get_difficulty_mem lvl with h | h | h | h <;> rw [h] <;>
    simp [FUNCTION_TEMPLATES]

theorem pickTmpl_mem (lvl c : ℕ) :
    pickTmpl lvl c ∈ FUNCTION_TEMPLATES (get_difficulty_for_level lvl) :=
  getD_mod_mem _ (templates_ne_nil lvl) c _

theorem new_level_fields (L : MathFns) (c : ℕ) (s : Simulation) :
    (new_level L c s).is_win = false ∧
    (new_level L c s).current_error = none ∧
    (new_level L c s).player_pts = [] ∧
    (new_level L c s).text_input = none ∧
    (new_level L c s).is_valid = s.is_valid ∧
    (new_level L c s).difficulty = get_difficulty_for_level s.level ∧
    (new_level L c s).target_formula = (pickTmpl s.level c).text ∧
    (new_level L c s).target_src = some (pickTmpl s.level c).tree ∧
    (new_level L c s).level = s.level ∧
    (new_level L c s).score = s.score ∧
    (new_level L c s).hints_available = s.hints_available ∧
    (new_level L c s).x_range = s.x_range ∧
    (new_level L c s).nb_points = s.nb_points := by
  unfold new_level
  rcases calc_target_shape L (resetForLevel c s) with h | ⟨p, a, b, h⟩ <;> rw [h] <;>
    exact ⟨rfl, rfl, rfl, rfl, rfl, rfl, rfl, rfl, rfl, rfl, rfl, rfl, rfl⟩

theorem check_win_shape (s : Simulation) :
    check_win s = { s with is_win := false, current_error := none } ∨
    ∃ er : ℚ,
      (check_win s = { s with is_win := decide (er < error_tolerance_of s.difficulty),
                              current_error := some er } ∧
        ¬ er < error_tolerance_of s.difficulty) ∨
      (check_win s = { s with is_win := decide (er < error_tolerance_of s.difficulty),
                              current_error := some er,
                              score := s.score + points_of s.difficulty,
                              level := s.level + 1 } ∧
        er < error_tolerance_of s.difficulty ∧
        s.target_pts ≠ [] ∧ s.player_pts ≠ []) := by
  unfold check_win
  dsimp only
  split
  · exact Or.inl rfl
  · rename_i hne
    split
    · exact Or.inl rfl
    · rename_i hn
      split
      · rename_i hwin
        refine Or.inr ⟨_, Or.inr ⟨rfl, hwin, ?_, ?_⟩⟩
        · intro hemp
          rw [hemp] at hne
          simp at hne
        · intro hemp
          rw [hemp] at hne
          simp at hne
      · rename_i hlose
        exact Or.inr ⟨_, Or.inl ⟨rfl, hlose⟩⟩

theorem check_win_win (s : Simulation) (h : (check_win s).is_win = true) :
    s.target_pts ≠ [] ∧ s.player_pts ≠ [] ∧
    ∃ er, (check_win s).current_error = some er ∧
      er < error_tolerance_of s.difficulty := by
  rcases check_win_shape s with hs | ⟨er, ⟨hs, hlt⟩ | ⟨hs, hlt, ht, hp⟩⟩
  · rw [hs] at h
    simp at h
  · rw [hs] at h
    simp only at h
    rw [decide_eq_true_eq] at h
    exact absurd h hlt
  · exact ⟨ht, hp, er, by rw [hs], hlt⟩

theorem check_win_frame (s : Simulation) :
    (check_win s).target_pts = s.target_pts ∧
    (check_win s).player_pts = s.player_pts ∧
    (check_win s).difficulty = s.difficulty ∧
    (check_win s).hints_available = s.hints_available ∧
    (check_win s).is_valid = s.is_valid ∧
    (check_win s).text_input = s.text_input ∧
    (check_win s).target_formula = s.target_formula ∧
    (check_win s).target_src = s.target_src ∧
    (check_win s).x_range = s.x_range ∧
    (check_win s).nb_points = s.nb_points ∧
    (check_win s).y_min = s.y_min ∧
    (check_win s).y_max = s.y_max := by
  rcases check_win_shape s with hs | ⟨er, ⟨hs, _⟩ | ⟨hs, _, _, _⟩⟩ <;> rw [hs] <;>
    exact ⟨rfl, rfl, rfl, rfl, rfl, rfl, rfl, rfl, rfl, rfl, rfl, rfl⟩

theorem calc_points_valid_pts_ne (L : MathFns) (xr : ℚ × ℚ) (n : ℕ)
    (src : Option Expr) (h : (calc_points L xr n src).valid = true) :
    (calc_points L xr n src).pts ≠ [] := by
  cases src with
  | none => simp [calc_points] at h
  | some e =>
    intro hnil
    obtain ⟨i, hlt, hok⟩ := (calc_points_valid_iff L xr n e).mp h
    have hpts := calc_points_pts L xr n e
    rw [hnil] at hpts
    have hnone := List.filterMap_eq_nil_iff.mp hpts.symm i (List.mem_range.mpr hlt)
    unfold samplePoint at hnone
    cases he : evalE L (sampleX xr n i) e with
    | ok v =>
      rw [he] at hnone
      simp at hnone
    | error er =>
      rw [he] at hok
      simp [isOkB] at hok

theorem update_player_shape (L : MathFns) (t : Option Expr) (s : Simulation) :
    (∃ pts : List (ℚ × ℚ),
      update_player L t s
        = check_win { s with text_input := t, is_valid := true, player_pts := pts } ∧
      pts ≠ []) ∨
    update_player L t s
      = { s with text_input := t, is_valid := false, player_pts := [],
                 is_win := false, current_error := none } := by
  unfold update_player
  dsimp only
  split
  · rename_i hv
    left
    exact ⟨(calc_points L s.x_range s.nb_points t).pts,
      by rw [hv], calc_points_valid_pts_ne L s.x_range s.nb_points t hv⟩
  · right
    rename_i hv
    rw [Bool.not_eq_true] at hv
    rw [hv]

theorem update_player_win (L : MathFns) (t : Option Expr) (s : Simulation)
    (h : (update_player L t s).is_win = true) :
    (update_player L t s).target_pts ≠ [] ∧
    (update_player L t s).player_pts ≠ [] ∧
    ∃ er, (update_player L t s).current_error = some er ∧
      er < error_tolerance_of (update_player L t s).difficulty := by
  rcases update_player_shape L t s with ⟨pts, heq, hne⟩ | heq
  · rw [heq] at h ⊢
    obtain ⟨ht, hp, er, hce, hlt⟩ :=
      check_win_win { s with text_input := t, is_valid := true, player_pts := pts } h
    obtain ⟨f1, f2, f3, _⟩ :=
      check_win_frame { s with text_input := t, is_valid := true, player_pts := pts }
    rw [f1, f2, f3]
    exact ⟨ht, hp, er, hce, hlt⟩
  · rw [heq] at h
    simp at h

theorem update_player_hints (L : MathFns) (t : Option Expr) (s : Simulation) :
    (update_player L t s).hints_available = s.hints_available := by
  rcases update_player_shape L t s with ⟨pts, heq, _⟩ | heq
  · rw [heq]
    exact (check_win_frame _).2.2.2.1
  · rw [heq]

theorem get_hint_snd (c : ℕ) (s : Simulation) :
    (s.hints_available ≤ 0 ∧ (get_hint c s).2 = s) ∨
    (0 < s.hints_available ∧
      (get_hint c s).2 = { s with hints_available := s.hints_available - 1 }) := by
  unfold get_hint
  by_cases h : s.hints_available ≤ 0
  · left
    exact ⟨h, by rw [if_pos h]⟩
  · right
    refine ⟨lt_of_not_le h, ?_⟩
    rw [if_neg h]
    dsimp only
    split <;> rfl

theorem get_hint_fst (c : ℕ) (s : Simulation) (h : 0 < s.hints_available) :
    ∃ msg, (get_hint c s).1 = some msg ∧
      (msg ∈ hintsFor s.target_formula ∨
        (hintsFor s.target_formula = [] ∧ msg = FALLBACK_HINT)) := by
  unfold get_hint
  rw [if_neg (not_le.mpr h)]
  dsimp only
  split
  · rename_i hemp
    exact ⟨FALLBACK_HINT, rfl, Or.inr ⟨List.isEmpty_iff.mp hemp, rfl⟩⟩
  · rename_i hemp
    refine ⟨_, rfl, Or.inl ?_⟩
    refine getD_mod_mem _ ?_ c _
    intro hnil
    rw [hnil] at hemp
    simp at hemp

theorem reachable_win_char (L : MathFns) (s : Simulation) (hr : Reachable L s) :
    s.is_win = true →
    s.target_pts ≠ [] ∧ s.player_pts ≠ [] ∧
    ∃ er, s.current_error = some er ∧ er < error_tolerance_of s.difficulty := by
  induction hr with
  | init c =>
    intro hw
    unfold Simulation.init at hw
    rw [(new_level_fields L c _).1] at hw
    exact absurd hw (by simp)
  | new_level c hr ih =>
    intro hw
    rw [(new_level_fields L c _).1] at hw
    exact absurd hw (by simp)
  | update_player t hr ih =>
    intro hw
    exact update_player_win L t _ hw
  | skip_level c hr ih =>
    intro hw
    unfold skip_level at hw
    rw [(new_level_fields L c _).1] at hw
    exact absurd hw (by simp)
  | get_hint c hr ih =>
    intro hw
    rcases get_hint_snd c _ with ⟨_, heq⟩ | ⟨_, heq⟩ <;> rw [heq] at hw ⊢
    · exact ih hw
    · exact ih hw

theorem reachable_hints_nonneg (L : MathFns) (s : Simulation)
    (hr : Reachable L s) : 0 ≤ s.hints_available := by
  induction hr with
  | init c =>
    unfold Simulation.init
    rw [(new_level_fields L c _).2.2.2.2.2.2.2.2.2.2.1]
    decide
  | new_level c hr ih =>
    rw [(new_level_fields L c _).2.2.2.2.2.2.2.2.2.2.1]
    exact ih
  | update_player t hr ih =>
    rw [update_player_hints]
    exact ih
  | skip_level c hr ih =>
    unfold skip_level
    rw [(new_level_fields L c _).2.2.2.2.2.2.2.2.2.2.1]
    exact ih
  | get_hint c hr ih =>
    rcases get_hint_snd c _ with ⟨_, heq⟩ | ⟨hpos, heq⟩ <;> rw [heq]
    · exact ih
    · show 0 ≤ _ - 1
      omega

theorem calc_target_eq (L : MathFns) (s : Simulation)
    (h : (calc_points L s.x_range s.nb_points s.target_src).valid = true) :
    calc_target L s = { s with
      target_pts := (calc_points L s.x_range s.nb_points s.target_src).pts,
      y_min := (calc_points L s.x_range s.nb_points s.target_src).mn
        - (if (calc_points L s.x_range s.nb_points s.target_src).mx
              - (calc_points L s.x_range s.nb_points s.target_src).mn = 0 then 1
           else (calc_points L s.x_range s.nb_points s.target_src).mx
              - (calc_points L s.x_range s.nb_points s.target_src).mn)
          * Y_RANGE_MARGIN,
      y_max := (calc_points L s.x_range s.nb_points s.target_src).mx
        + (if (calc_points L s.x_range s.nb_points s.target_src).mx
              - (calc_points L s.x_range s.nb_points s.target_src).mn = 0 then 1
           else (calc_points L s.x_range s.nb_points s.target_src).mx
              - (calc_points L s.x_range s.nb_points s.target_src).mn)
          * Y_RANGE_MARGIN } := by
  unfold calc_target
  dsimp only
  rw [h]
  rfl

/-- Evaluating the expression `"x"` never consults the math-function bundle,
so its sampling outcome is the same for every bundle. -/
theorem calcx_indep (L : MathFns) (xr : ℚ × ℚ) (n : ℕ) :
    calc_points L xr n (some (Expr.name "x"))
      = calc_points mathStub xr n (some (Expr.name "x")) := by
  unfold calc_points
  dsimp only
  rw [show scanStep L (Expr.name "x") xr n = scanStep mathStub (Expr.name "x") xr n
      from rfl]

/-- Sampling the expression `"x"` over `[0, 10]` with `N = 400`: concrete
outcome of `_calc_points`, independent of the math-function bundle (the
expression never consults it). -/
theorem calcx_facts (L : MathFns) :
    (calc_points L (0, 10) 400 (some (Expr.name "x"))).valid = true ∧
    (calc_points L (0, 10) 400 (some (Expr.name "x"))).pts.length = 401 ∧
    (calc_points L (0, 10) 400 (some (Expr.name "x"))).mn = 0 ∧
    (calc_points L (0, 10) 400 (some (Expr.name "x"))).mx = 10 := by
  rw [calcx_indep]
  with_unfolding_all decide

/-! ### The claims -/

/-- C1 (amended): a reference to an identifier outside the Function Registry
(`ALLOWED_MATH` plus the variable `x`) is rejected at EVALUATION time, not
parse time: for non-blank input the expression is passed to `eval` at every
sample point (`evalAttempts` is `nb_points + 1`, not `0`), the unknown name
raises `NameError` inside `eval` at every point (for any value of `x`), every
point is therefore skipped, and the resulting curve is empty and invalid — so
an unregistered identifier can never contribute a value, but nothing is
rejected before evaluation. -/
theorem claim1_unknown_identifier :
    ∀ (L : MathFns) (x : ℚ) (f : String) (a : Expr),
    f ∉ registeredNames →
    evalE L x (Expr.name f) = .error .nameError ∧
    evalE L x (Expr.call f a) = .error .nameError ∧
    ∀ (xr : ℚ × ℚ) (n : ℕ),
      calc_points L xr n (some (Expr.call f a)) = ⟨[], false, -5, 5⟩ ∧
      evalAttempts n (some (Expr.call f a)) = n + 1 := by
  intro L x f a hf
  have hx : ¬ f = "x" := fun h => hf (by rw [h]; exact List.mem_cons_self _ _)
  have hkeys : f ∉ ALLOWED_MATH_KEYS := fun h => hf (List.mem_cons_of_mem _ h)
  have hname : ∀ y : ℚ, evalE L y (Expr.name f) = .error .nameError := by
    intro y
    show lookupName L y f = _
    unfold lookupName
    rw [if_neg hx, if_neg ?hpi, if_neg ?he, if_neg hkeys]
    case hpi =>
      intro h
      exact hkeys (by rw [h]; decide)
    case he =>
      intro h
      exact hkeys (by rw [h]; decide)
  have hcall : ∀ y : ℚ, evalE L y (Expr.call f a) = .error .nameError := by
    intro y
    show (if f ∈ registeredNames then _ else Except.error PyErr.nameError) = _
    rw [if_neg hf]
  refine ⟨hname x, hcall x, ?_⟩
  intro xr n
  refine ⟨?_, rfl⟩
  apply calc_points_invalid
  intro i hi
  rw [hcall (sampleX xr n i)]
  rfl

/-- C1 witness: the theorem applied at the concrete input `foo(x)` (an
expression referencing the unregistered identifier `foo`), evaluated over the
simulation's actual domain `[0, 10]` with `N = 400`. -/
theorem claim1_witness :
    ("foo" ∉ registeredNames) ∧
    evalE mathStub 0 (Expr.name "foo") = .error .nameError ∧
    evalE mathStub 0 (Expr.call "foo" (Expr.name "x")) = .error .nameError ∧
    calc_points mathStub (0, 10) 400 (some (Expr.call "foo" (Expr.name "x")))
      = ⟨[], false, -5, 5⟩ ∧
    evalAttempts 400 (some (Expr.call "foo" (Expr.name "x"))) = 401 := by
  have hf : "foo" ∉ registeredNames := by decide
  obtain ⟨h1, h2, h3⟩ := claim1_unknown_identifier mathStub 0 "foo" (Expr.name "x") hf
  exact ⟨hf, h1, h2, (h3 (0, 10) 400).1, (h3 (0, 10) 400).2⟩

/-- C1 counterexample: the input `foo(x)` references the unregistered
identifier `foo`; contrary to the claim it is NOT "never passed to the
Evaluator": `_calc_points` hands it to `eval` at all `401` sample points
(`evalAttempts` is `401`, not `0`), and the rejection is the `NameError` that
`eval` raises at evaluation time. -/
theorem claim1_counterexample :
    ¬ evalAttempts 400 (some (Expr.call "foo" (Expr.name "x"))) = 0 ∧
    evalAttempts 400 (some (Expr.call "foo" (Expr.name "x"))) = 401 ∧
    evalE mathStub 0 (Expr.call "foo" (Expr.name "x")) = .error .nameError :=
  ⟨by decide, rfl, rfl⟩

/-- C2 (amended): sampling `"x"` over the domain `[0, 10]` with `N = 400`
produces a valid curve of exactly 401 points with no skipped point (each index
yields its sample), the observed value range is `(0, 10)`, and the plotting
y-range equals `(min_y - margin, max_y + margin)` with
`margin = 20% of the observed span` — numerically `(-2, 12)` (margin `2`), not
`(-0.2, 10.2)`. -/
theorem claim2_sampling_x :
    ∀ (L : MathFns) (s : Simulation),
    s.x_range = (0, 10) → s.nb_points = 400 →
    s.target_src = some (Expr.name "x") →
    (calc_points L s.x_range s.nb_points s.target_src).valid = true ∧
    (calc_points L s.x_range s.nb_points s.target_src).pts.length = 401 ∧
    (∀ i < 401, samplePoint L s.x_range s.nb_points (Expr.name "x") i
      = some (sampleX s.x_range s.nb_points i, sampleX s.x_range s.nb_points i)) ∧
    (calc_points L s.x_range s.nb_points s.target_src).mn = 0 ∧
    (calc_points L s.x_range s.nb_points s.target_src).mx = 10 ∧
    (calc_target L s).y_min
      = (calc_points L s.x_range s.nb_points s.target_src).mn
        - ((calc_points L s.x_range s.nb_points s.target_src).mx
            - (calc_points L s.x_range s.nb_points s.target_src).mn)
          * Y_RANGE_MARGIN ∧
    (calc_target L s).y_max
      = (calc_points L s.x_range s.nb_points s.target_src).mx
        + ((calc_points L s.x_range s.nb_points s.target_src).mx
            - (calc_points L s.x_range s.nb_points s.target_src).mn)
          * Y_RANGE_MARGIN ∧
    (calc_target L s).y_min = -2 ∧ (calc_target L s).y_max = 12 := by
  intro L s hx hn ht
  obtain ⟨hval, hlen, hmn, hmx⟩ := calcx_facts L
  rw [hx, hn, ht]
  have hvals : (calc_points L s.x_range s.nb_points s.target_src).valid = true := by
    rw [hx, hn, ht]
    exact hval
  have hct := calc_target_eq L s hvals
  rw [hx, hn, ht] at hct
  rw [hmn, hmx] at hct
  have hne10 : ¬ ((10 : ℚ) - 0 = 0) := by norm_num
  rw [if_neg hne10] at hct
  refine ⟨hval, hlen, ?_, hmn, hmx, ?_, ?_, ?_, ?_⟩
  · intro i hi
    simp [samplePoint, evalE, lookupName]
  all_goals simp only [hct, hmn, hmx]
  · unfold Y_RANGE_MARGIN
    norm_num
  · unfold Y_RANGE_MARGIN
    norm_num

/-- The concrete simulation state used to instantiate C2: domain `[0, 10]`,
401 samples, target formula `"x"`. -/
def sC2 : Simulation :=
  { x_range := (0, 10), nb_points := 400, target_formula := "x",
    target_src := some (Expr.name "x"), target_pts := [], player_pts := [],
    y_min := -5, y_max := 5, is_valid := true, is_win := false,
    text_input := none, current_error := none, difficulty := "easy",
    level := 1, score := 0, hints_available := 3 }

/-- C2 witness: the theorem applied to the concrete state `sC2`. -/
theorem claim2_witness :
    (calc_points mathStub sC2.x_range sC2.nb_points sC2.target_src).valid = true ∧
    (calc_points mathStub sC2.x_range sC2.nb_points sC2.target_src).pts.length = 401 ∧
    (calc_target mathStub sC2).y_min = -2 ∧
    (calc_target mathStub sC2).y_max = 12 := by
  obtain ⟨h1, h2, _, _, _, _, _, h8, h9⟩ := claim2_sampling_x mathStub sC2 rfl rfl rfl
  exact ⟨h1, h2, h8, h9⟩

/-- C2 counterexample: for the state `sC2` the computed plotting y-range is
exactly `(-2, 12)` (margin = 20% of the observed span 10, i.e. 2), which is
not "approximately `[-0.2, 10.2]`" under any reading tighter than the margin
itself (here: within `1/2`). -/
theorem claim2_counterexample :
    (calc_target mathStub sC2).y_min = -2 ∧
    (calc_target mathStub sC2).y_max = 12 ∧
    ¬ (|(calc_target mathStub sC2).y_min - (-2/10)| ≤ 1/2 ∧
       |(calc_target mathStub sC2).y_max - 102/10| ≤ 1/2) := by
  obtain ⟨hval, _, hmn, hmx⟩ := calcx_facts mathStub
  have hct := calc_target_eq mathStub sC2 hval
  rw [show sC2.x_range = ((0 : ℚ), (10 : ℚ)) from rfl,
      show sC2.nb_points = 400 from rfl,
      show sC2.target_src = some (Expr.name "x") from rfl] at hct
  rw [hmn, hmx] at hct
  have hne10 : ¬ ((10 : ℚ) - 0 = 0) := by norm_num
  rw [if_neg hne10] at hct
  have hy1 : (calc_target mathStub sC2).y_min = -2 := by
    simp only [hct]
    unfold Y_RANGE_MARGIN
    norm_num
  have hy2 : (calc_target mathStub sC2).y_max = 12 := by
    simp only [hct]
    unfold Y_RANGE_MARGIN
    norm_num
  refine ⟨hy1, hy2, ?_⟩
  rw [hy1, hy2]
  rintro ⟨ha, hb⟩
  rw [abs_le] at ha
  norm_num at ha

/-- C3 (confirmed): per-point failure isolation of the sampler.  The point
list is exactly the per-index `filterMap` of the independent per-point
outcomes (a failing point is skipped and all other points are kept); the
curve is valid iff at least one point evaluated to a (finite) value; when no
point is valid the sampler returns no points, the validity flag `false` and
the fixed default range `(-5, 5)`.  Sampling is a total function by
construction (`eval` exceptions are values of `Except`, so e.g.
`sqrt(x - 20)` over `[0, 10]` cannot crash — see the witness). -/
theorem claim3_per_point_isolation :
    ∀ (L : MathFns) (xr : ℚ × ℚ) (n : ℕ) (e : Expr),
    (calc_points L xr n (some e)).pts
      = (List.range (n + 1)).filterMap (samplePoint L xr n e) ∧
    ((calc_points L xr n (some e)).valid = true
      ↔ ∃ i < n + 1, isOkB (evalE L (sampleX xr n i) e) = true) ∧
    ((∀ i < n + 1, isOkB (evalE L (sampleX xr n i) e) = false) →
      calc_points L xr n (some e) = ⟨[], false, -5, 5⟩) :=
  fun L xr n e =>
    ⟨calc_points_pts L xr n e, calc_points_valid_iff L xr n e,
      calc_points_invalid L xr n e⟩

/-- The expression `sqrt(x - 20)`, whose argument is negative on all of
`[0, 10]`, so `math.sqrt` raises `ValueError` at every sample point. -/
def sqrtExpr : Expr := Expr.call "sqrt" (Expr.sub (Expr.name "x") (Expr.num 20))

/-- C3 witness: the theorem applied to `sqrt(x - 20)` over `[0, 10]` with
`N = 400`: every point fails, and the sampler returns the empty, invalid
curve with the default range — no crash. -/
theorem claim3_witness :
    (∀ i < 401, isOkB (evalE mathStub (sampleX (0, 10) 400 i) sqrtExpr) = false) ∧
    calc_points mathStub (0, 10) 400 (some sqrtExpr) = ⟨[], false, -5, 5⟩ := by
  have h : ∀ i < 401,
      isOkB (evalE mathStub (sampleX (0, 10) 400 i) sqrtExpr) = false := by
    with_unfolding_all decide
  exact ⟨h, (claim3_per_point_isolation mathStub (0, 10) 400 sqrtExpr).2.2 h⟩

/-- The claim's formula for the normalized error, written independently of the
code's accumulation loop: the mean over the first
`min(len(target), len(player))` index-aligned points of
`|player_y[i] - target_y[i]| / max(target_y_range_span, 1e-6)`. -/
def normErrSpec (s : Simulation) : ℚ :=
  (∑ i ∈ Finset.range (min s.target_pts.length s.player_pts.length),
      |(s.player_pts.getD i (0, 0)).2 - (s.target_pts.getD i (0, 0)).2|
        / max (s.y_max - s.y_min) (1/1000000))
    / ((min s.target_pts.length s.player_pts.length : ℕ) : ℚ)

theorem winAvgErr_eq (s : Simulation) :
    winAvgErr s (min s.target_pts.length s.player_pts.length) = normErrSpec s := by
  unfold winAvgErr normErrSpec winSpan
  rw [foldl_add_range
    (fun i => |(s.player_pts.getD i (0, 0)).2 - (s.target_pts.getD i (0, 0)).2|
      / max (s.y_max - s.y_min) (1/1000000))]

/-- C4 (confirmed): whenever both curves are valid and non-empty, `_check_win`
records as the current error the mean over the first
`min(len(target), len(player))` index-aligned points of
`|player_y[i] - target_y[i]| / max(span, ε)` (with `ε = 1e-6` and `span` the
stored plotting y-range span), sets the win flag iff that error is strictly
below the current tier's tolerance, and on a win adds exactly the tier's
point award to the score and increments the level by one (and otherwise
leaves score and level unchanged). -/
theorem claim4_win_check :
    ∀ s : Simulation,
    s.is_valid = true → s.target_pts ≠ [] → s.player_pts ≠ [] →
    (check_win s).current_error = some (normErrSpec s) ∧
    ((check_win s).is_win = true
      ↔ normErrSpec s < error_tolerance_of s.difficulty) ∧
    (normErrSpec s < error_tolerance_of s.difficulty →
      (check_win s).is_win = true ∧
      (check_win s).score = s.score + points_of s.difficulty ∧
      (check_win s).level = s.level + 1) ∧
    (¬ normErrSpec s < error_tolerance_of s.difficulty →
      (check_win s).is_win = false ∧
      (check_win s).score = s.score ∧ (check_win s).level = s.level) := by
  intro s _ ht hp
  have hn0 : ¬ (min s.target_pts.length s.player_pts.length = 0) := by
    have h1 : 0 < s.target_pts.length := List.length_pos.mpr ht
    have h2 : 0 < s.player_pts.length := List.length_pos.mpr hp
    omega
  have hemp : ¬ ((s.target_pts.isEmpty || s.player_pts.isEmpty) = true) := by
    rw [Bool.or_eq_true_iff, List.isEmpty_iff, List.isEmpty_iff]
    rintro (h1 | h1)
    · exact ht h1
    · exact hp h1
  have havg := winAvgErr_eq s
  unfold check_win
  dsimp only
  rw [if_neg hemp, if_neg hn0, havg]
  by_cases hlt : normErrSpec s < error_tolerance_of s.difficulty
  · rw [if_pos hlt]
    refine ⟨rfl, ?_, fun _ => ⟨?_, rfl, rfl⟩, fun hn => absurd hlt hn⟩
    · simp [hlt]
    · simp [hlt]
  · rw [if_neg hlt]
    refine ⟨rfl, ?_, fun hl => absurd hl hlt, fun _ => ⟨?_, rfl, rfl⟩⟩
    · simp [hlt]
    · simp [hlt]

/-- A concrete state for the C4 witness: identical two-point target and
player curves, easy tier. -/
def s4 : Simulation :=
  { x_range := (0, 10), nb_points := 400, target_formula := "x",
    target_src := some (Expr.name "x"), target_pts := [(0, 0), (1, 1)],
    player_pts := [(0, 0), (1, 1)], y_min := -5, y_max := 5, is_valid := true,
    is_win := false, text_input := some (Expr.name "x"), current_error := none,
    difficulty := "easy", level := 1, score := 0, hints_available := 3 }

/-- C4 witness: the theorem applied to `s4`, where the normalized error is `0`,
below the easy tolerance `0.05`, so the win fires, 100 points are awarded and
the level advances. -/
theorem claim4_witness :
    normErrSpec s4 < error_tolerance_of s4.difficulty ∧
    (check_win s4).current_error = some (normErrSpec s4) ∧
    (check_win s4).is_win = true ∧
    (check_win s4).score = s4.score + points_of s4.difficulty ∧
    (check_win s4).level = s4.level + 1 := by
  have hlt : normErrSpec s4 < error_tolerance_of s4.difficulty := by
    with_unfolding_all decide
  obtain ⟨h1, _, h3, _⟩ :=
    claim4_win_check s4 rfl (by simp [s4]) (by simp [s4])
  obtain ⟨hw, hs, hl⟩ := h3 hlt
  exact ⟨hlt, h1, hw, hs, hl⟩

/-- C5 (amended): in every reachable state the win flag is true only when both
curves are non-empty and the recorded normalized error is below the error
tolerance of the STORED difficulty tier (`difficulty`, the tier under which
the win was checked).  The claim as stated — with the tier re-derived from the
current level — fails, because a winning update increments the level before
the tier field is refreshed (see the counterexample). -/
theorem claim5_win_invariant :
    ∀ (L : MathFns) (s : Simulation), Reachable L s → s.is_win = true →
    s.target_pts ≠ [] ∧ s.player_pts ≠ [] ∧
    ∃ er, s.current_error = some er ∧ er < error_tolerance_of s.difficulty :=
  fun L s hr hw => reachable_win_char L s hr hw

/-- The target/player curve of the formula `"x"` over `[0, 10]` with 401
samples, written in closed form: the points `(i/40, i/40)`. -/
def xPts : List (ℚ × ℚ) :=
  (List.range 401).map (fun i : ℕ => ((i : ℚ)/40, (i : ℚ)/40))

/-- The curve of the player formula `"x + 0.63"` over the same samples. -/
def pPts : List (ℚ × ℚ) :=
  (List.range 401).map (fun i : ℕ => ((i : ℚ)/40, (i : ℚ)/40 + 63/100))

theorem xPts_length : xPts.length = 401 := by
  unfold xPts
  rw [List.length_map, List.length_range]

theorem pPts_length : pPts.length = 401 := by
  unfold pPts
  rw [List.length_map, List.length_range]

theorem xPts_ne_nil : xPts ≠ [] := by
  intro h
  have h1 := congrArg List.length h
  rw [xPts_length] at h1
  simp at h1

theorem pPts_ne_nil : pPts ≠ [] := by
  intro h
  have h1 := congrArg List.length h
  rw [pPts_length] at h1
  simp at h1

theorem xPts_getD (i : ℕ) (h : i < 401) :
    xPts.getD i (0, 0) = ((i : ℚ)/40, (i : ℚ)/40) := by
  have hlen : i < xPts.length := by
    rw [xPts_length]
    exact h
  rw [List.getD_eq_getElem _ _ hlen]
  unfold xPts
  rw [List.getElem_map, List.getElem_range]

theorem pPts_getD (i : ℕ) (h : i < 401) :
    pPts.getD i (0, 0) = ((i : ℚ)/40, (i : ℚ)/40 + 63/100) := by
  have hlen : i < pPts.length := by
    rw [pPts_length]
    exact h
  rw [List.getD_eq_getElem _ _ hlen]
  unfold pPts
  rw [List.getElem_map, List.getElem_range]

/-- When target and player curves are both the curve of `"x"`, the error loop
of `_check_win` averages 401 zero differences: the normalized error is `0`. -/
theorem winAvgErr_xx (s : Simulation) (ht : s.target_pts = xPts)
    (hp : s.player_pts = xPts) : winAvgErr s 401 = 0 := by
  unfold winAvgErr
  rw [foldl_add_range (fun i =>
    |(s.player_pts.getD i (0, 0)).2 - (s.target_pts.getD i (0, 0)).2|
      / winSpan s)]
  rw [Finset.sum_eq_zero]
  · norm_num
  · intro i hi
    rw [ht, hp, xPts_getD i (Finset.mem_range.mp hi)]
    simp

/-- When the target curve is that of `"x"`, the player curve that of
`"x + 0.63"`, and the plotting range is `(-2, 12)` (span 14), every per-point
normalized difference is `0.63/14 = 9/200`, hence so is their mean. -/
theorem winAvgErr_xp (s : Simulation) (ht : s.target_pts = xPts)
    (hp : s.player_pts = pPts) (h1 : s.y_min = -2) (h2 : s.y_max = 12) :
    winAvgErr s 401 = 9/200 := by
  unfold winAvgErr
  rw [foldl_add_range (fun i =>
    |(s.player_pts.getD i (0, 0)).2 - (s.target_pts.getD i (0, 0)).2|
      / winSpan s)]
  have hspan : winSpan s = 14 := by
    unfold winSpan
    rw [h1, h2]
    rw [max_eq_left (by norm_num : (1 : ℚ)/1000000 ≤ 12 - -2)]
    norm_num
  have hterm : ∀ i ∈ Finset.range 401,
      |(s.player_pts.getD i (0, 0)).2 - (s.target_pts.getD i (0, 0)).2|
        / winSpan s = 9/200 := by
    intro i hi
    rw [ht, hp, xPts_getD i (Finset.mem_range.mp hi),
      pPts_getD i (Finset.mem_range.mp hi), hspan]
    have hd : ((i : ℚ)/40 + 63/100) - (i : ℚ)/40 = 63/100 := by ring
    show |((i : ℚ)/40 + 63/100) - (i : ℚ)/40| / 14 = 9/200
    rw [hd, abs_of_nonneg (by norm_num : (0 : ℚ) ≤ 63/100)]
    norm_num
  rw [Finset.sum_congr rfl hterm, Finset.sum_const, Finset.card_range,
    nsmul_eq_mul]
  norm_num

theorem filterMap_all_some {α β : Type} (f : α → Option β) (g : α → β)
    (l : List α) (h : ∀ a ∈ l, f a = some (g a)) :
    l.filterMap f = l.map g := by
  induction l with
  | nil => rfl
  | cons a l ih =>
    rw [List.filterMap_cons, h a (List.mem_cons_self a l), List.map_cons,
      ih (fun b hb => h b (List.mem_cons_of_mem a hb))]

theorem sampleX_std (i : ℕ) : sampleX (0, 10) 400 i = (i : ℚ)/40 := by
  show (0 : ℚ) + (i : ℚ) * (((10 : ℚ) - 0) / ((400 : ℕ) : ℚ)) = (i : ℚ)/40
  push_cast
  ring

/-- Closed form of a winning `_check_win` pass over two 401-point curves. -/
theorem check_win_eval (s : Simulation) (er : ℚ)
    (ht : s.target_pts.length = 401) (hp : s.player_pts.length = 401)
    (htne : s.target_pts ≠ []) (hpne : s.player_pts ≠ [])
    (havg : winAvgErr s 401 = er)
    (hlt : er < error_tolerance_of s.difficulty) :
    check_win s = { s with current_error := some er, is_win := true,
                           score := s.score + points_of s.difficulty,
                           level := s.level + 1 } := by
  have hemp : ¬ ((s.target_pts.isEmpty || s.player_pts.isEmpty) = true) := by
    rw [Bool.or_eq_true_iff, List.isEmpty_iff, List.isEmpty_iff]
    rintro (h | h)
    · exact htne h
    · exact hpne h
  unfold check_win
  dsimp only
  rw [if_neg hemp, ht, hp, Nat.min_self]
  rw [if_neg (by norm_num : ¬ (401 = 0))]
  rw [havg, if_pos hlt, decide_eq_true hlt]

/-- The state after `Simulation()` with the template draw resolved to `"x"`. -/
def S1 : Simulation :=
  ⟨(0, 10), 400, "x", some (Expr.name "x"), xPts, [], -2, 12, true, false,
    none, none, "easy", 1, 0, 3⟩

/-- ... after submitting the matching text `"x"`: a win at the easy tier,
100 points, level 2. -/
def S2 : Simulation :=
  ⟨(0, 10), 400, "x", some (Expr.name "x"), xPts, xPts, -2, 12, true, true,
    some (Expr.name "x"), some 0, "easy", 2, 100, 3⟩

/-- ... after starting level 2 (draw resolved to `"x"` again). -/
def S3 : Simulation :=
  ⟨(0, 10), 400, "x", some (Expr.name "x"), xPts, [], -2, 12, true, false,
    none, none, "easy", 2, 100, 3⟩

/-- ... after the second win: 200 points, level 3. -/
def S4 : Simulation :=
  ⟨(0, 10), 400, "x", some (Expr.name "x"), xPts, xPts, -2, 12, true, true,
    some (Expr.name "x"), some 0, "easy", 3, 200, 3⟩

/-- ... after starting level 3 (still the easy tier: `3 <= 3`). -/
def S5 : Simulation :=
  ⟨(0, 10), 400, "x", some (Expr.name "x"), xPts, [], -2, 12, true, false,
    none, none, "easy", 3, 200, 3⟩

/-- The state `S5` right after its player text is set to `"x + 0.63"` and the
player curve is recomputed, as `_check_win` sees it. -/
def CW6 : Simulation :=
  ⟨(0, 10), 400, "x", some (Expr.name "x"), xPts, pPts, -2, 12, true, false,
    some (Expr.add (Expr.name "x") (Expr.num (63/100))), none, "easy", 3, 200, 3⟩

/-- ... after submitting `"x + 0.63"`: every point is off by `0.63`, the
normalized error is `0.63/14 = 9/200 = 0.045 < 0.05` (easy tolerance), so the
win fires and the level advances to 4 — while the recorded error and the
stored tier still belong to the easy check. -/
def S6 : Simulation :=
  ⟨(0, 10), 400, "x", some (Expr.name "x"), xPts, pPts, -2, 12, true, true,
    some (Expr.add (Expr.name "x") (Expr.num (63/100))), some (9/200),
    "easy", 4, 300, 3⟩

/-- The state `S1` right after its player text is set to `"x"` and the player
curve is recomputed, as `_check_win` sees it. -/
def S2cw : Simulation :=
  ⟨(0, 10), 400, "x", some (Expr.name "x"), xPts, xPts, -2, 12, true, false,
    some (Expr.name "x"), none, "easy", 1, 0, 3⟩

/-- The state `S3` right after its player text is set to `"x"` and the player
curve is recomputed, as `_check_win` sees it. -/
def S4cw : Simulation :=
  ⟨(0, 10), 400, "x", some (Expr.name "x"), xPts, xPts, -2, 12, true, false,
    some (Expr.name "x"), none, "easy", 2, 100, 3⟩

theorem claim5stage1 : Simulation.init mathStub 2 = S1 := by
  with_unfolding_all decide

theorem evalE_x (i : ℕ) :
    evalE mathStub (sampleX (0, 10) 400 i) (Expr.name "x")
      = .ok (sampleX (0, 10) 400 i) := rfl

theorem evalE_xoff (i : ℕ) :
    evalE mathStub (sampleX (0, 10) 400 i)
        (Expr.add (Expr.name "x") (Expr.num (63/100)))
      = .ok (sampleX (0, 10) 400 i + 63/100) := rfl

theorem calcx_valid :
    (calc_points mathStub (0, 10) 400 (some (Expr.name "x"))).valid = true := by
  rw [calc_points_valid_iff]
  exact ⟨0, by norm_num, by rw [evalE_x 0]; rfl⟩

theorem calcx_pts :
    (calc_points mathStub (0, 10) 400 (some (Expr.name "x"))).pts = xPts := by
  rw [calc_points_pts]
  have hall : ∀ a ∈ List.range (400 + 1),
      samplePoint mathStub (0, 10) 400 (Expr.name "x") a
        = some ((fun i : ℕ => ((i : ℚ)/40, (i : ℚ)/40)) a) := by
    intro i hi
    unfold samplePoint
    rw [evalE_x i]
    dsimp only
    rw [sampleX_std i]
  rw [filterMap_all_some _ _ _ hall]
  rfl

theorem calcoff_valid :
    (calc_points mathStub (0, 10) 400
      (some (Expr.add (Expr.name "x") (Expr.num (63/100))))).valid = true := by
  rw [calc_points_valid_iff]
  exact ⟨0, by norm_num, by rw [evalE_xoff 0]; rfl⟩

theorem calcoff_pts :
    (calc_points mathStub (0, 10) 400
      (some (Expr.add (Expr.name "x") (Expr.num (63/100))))).pts = pPts := by
  rw [calc_points_pts]
  have hall : ∀ a ∈ List.range (400 + 1),
      samplePoint mathStub (0, 10) 400
          (Expr.add (Expr.name "x") (Expr.num (63/100))) a
        = some ((fun i : ℕ => ((i : ℚ)/40, (i : ℚ)/40 + 63/100)) a) := by
    intro i hi
    unfold samplePoint
    rw [evalE_xoff i]
    dsimp only
    rw [sampleX_std i]
  rw [filterMap_all_some _ _ _ hall]
  rfl

theorem claim5stage2 : update_player mathStub (some (Expr.name "x")) S1 = S2 := by
  unfold update_player
  dsimp only
  rw [show S1.x_range = ((0 : ℚ), (10 : ℚ)) from rfl,
    show S1.nb_points = 400 from rfl]
  rw [calcx_valid, calcx_pts]
  show check_win S2cw = S2
  rw [check_win_eval S2cw 0 xPts_length xPts_length xPts_ne_nil xPts_ne_nil
    (winAvgErr_xx S2cw rfl rfl) (by with_unfolding_all decide)]
  with_unfolding_all decide

theorem claim5stage3 : new_level mathStub 2 S2 = S3 := by
  have hreset : resetForLevel 2 S2 = S3 := by
    with_unfolding_all decide
  unfold new_level
  rw [hreset]
  have hcp : calc_points mathStub S3.x_range S3.nb_points S3.target_src
      = ⟨xPts, true, 0, 10⟩ := by
    with_unfolding_all decide
  rw [calc_target_eq mathStub S3 (by rw [hcp])]
  rw [hcp]
  with_unfolding_all decide

theorem claim5stage4 : update_player mathStub (some (Expr.name "x")) S3 = S4 := by
  unfold update_player
  dsimp only
  rw [show S3.x_range = ((0 : ℚ), (10 : ℚ)) from rfl,
    show S3.nb_points = 400 from rfl]
  rw [calcx_valid, calcx_pts]
  show check_win S4cw = S4
  rw [check_win_eval S4cw 0 xPts_length xPts_length xPts_ne_nil xPts_ne_nil
    (winAvgErr_xx S4cw rfl rfl) (by with_unfolding_all decide)]
  with_unfolding_all decide

theorem claim5stage5 : new_level mathStub 2 S4 = S5 := by
  have hreset : resetForLevel 2 S4 = S5 := by
    with_unfolding_all decide
  unfold new_level
  rw [hreset]
  have hcp : calc_points mathStub S5.x_range S5.nb_points S5.target_src
      = ⟨xPts, true, 0, 10⟩ := by
    with_unfolding_all decide
  rw [calc_target_eq mathStub S5 (by rw [hcp])]
  rw [hcp]
  with_unfolding_all decide

theorem claim5stage6 :
    update_player mathStub (some (Expr.add (Expr.name "x") (Expr.num (63/100)))) S5
      = S6 := by
  unfold update_player
  dsimp only
  rw [show S5.x_range = ((0 : ℚ), (10 : ℚ)) from rfl,
    show S5.nb_points = 400 from rfl]
  rw [calcoff_valid, calcoff_pts]
  show check_win CW6 = S6
  rw [check_win_eval CW6 (9/200) xPts_length pPts_length xPts_ne_nil pPts_ne_nil
    (winAvgErr_xp CW6 rfl rfl rfl rfl) (by with_unfolding_all decide)]
  with_unfolding_all rfl

/-- A reachable winning state: start a session (template draw resolved to the
easy formula `"x"`) and submit the matching text `"x"`. -/
def s5win : Simulation :=
  update_player mathStub (some (Expr.name "x")) (Simulation.init mathStub 2)

/-- C5 witness: the amended invariant applied at the concrete reachable
winning state `s5win`. -/
theorem claim5_witness :
    Reachable mathStub s5win ∧ s5win.is_win = true ∧
    (s5win.target_pts ≠ [] ∧ s5win.player_pts ≠ [] ∧
      ∃ er, s5win.current_error = some er ∧
        er < error_tolerance_of s5win.difficulty) := by
  have hr : Reachable mathStub s5win :=
    Reachable.update_player _ (Reachable.init 2)
  have hchain : s5win = S2 := by
    unfold s5win
    rw [claim5stage1, claim5stage2]
  have hw : s5win.is_win = true := by
    rw [hchain]
    with_unfolding_all rfl
  exact ⟨hr, hw, claim5_win_invariant mathStub s5win hr hw⟩

/-- A reachable state violating the claim as stated: win three easy levels in
a row (templates resolved to `"x"` each time); the third win is scored with
error `0.045`, below easy's tolerance `0.05`, and raises the level from 3 to
4 — whose derived tier is medium with tolerance `0.04 < 0.045`. -/
def s5bad : Simulation :=
  update_player mathStub (some (Expr.add (Expr.name "x") (Expr.num (63/100))))
    (new_level mathStub 2
      (update_player mathStub (some (Expr.name "x"))
        (new_level mathStub 2
          (update_player mathStub (some (Expr.name "x"))
            (Simulation.init mathStub 2)))))

/-- C5 counterexample: `s5bad` is reachable, its win flag is set, but its
recorded error `9/200 = 0.045` is NOT below the tolerance of the tier derived
from its current level (level 4, medium, tolerance `0.04`) — the invariant as
stated in the claim fails; it holds only for the stored tier (easy). -/
theorem claim5_counterexample :
    Reachable mathStub s5bad ∧
    s5bad.is_win = true ∧
    s5bad.level = 4 ∧
    s5bad.current_error = some (9/200) ∧
    s5bad.difficulty = "easy" ∧
    get_difficulty_for_level s5bad.level = "medium" ∧
    ¬ (9 : ℚ)/200 < error_tolerance_of (get_difficulty_for_level s5bad.level) := by
  have hchain : s5bad = S6 := by
    unfold s5bad
    rw [claim5stage1, claim5stage2, claim5stage3, claim5stage4, claim5stage5,
      claim5stage6]
  rw [hchain]
  refine ⟨?_, rfl, rfl, ?_, rfl, ?_, ?_⟩
  · rw [← hchain]
    exact Reachable.update_player _
      (Reachable.new_level 2
        (Reachable.update_player _
          (Reachable.new_level 2
            (Reachable.update_player _ (Reachable.init 2)))))
  · with_unfolding_all decide
  · with_unfolding_all decide
  · with_unfolding_all decide

/-- C6 (confirmed): the difficulty tier is recomputed from the level number
alone on every level start, and the boundary values are exact: level 3 is
easy, level 4 medium, level 10 hard, level 11 expert. -/
theorem claim6_tier_thresholds :
    get_difficulty_for_level 3 = "easy" ∧
    get_difficulty_for_level 4 = "medium" ∧
    get_difficulty_for_level 10 = "hard" ∧
    get_difficulty_for_level 11 = "expert" ∧
    ∀ (L : MathFns) (c : ℕ) (s : Simulation),
      (new_level L c s).difficulty = get_difficulty_for_level s.level := by
  refine ⟨by decide, by decide, by decide, by decide, ?_⟩
  intro L c s
  exact (new_level_fields L c s).2.2.2.2.2.1

/-- C7 (amended): `new_level` selects the target formula from the current
tier's template set, resets the player input and player curve to empty,
clears the win flag and the current error, recomputes the target curve via
`_calc_target`, and leaves score, level and hint budget unchanged.  It does
NOT reset the validity flag (`is_valid` keeps its previous value) — the
player curve is emptied but not marked invalid. -/
theorem claim7_new_level_resets :
    ∀ (L : MathFns) (c : ℕ) (s : Simulation),
    (new_level L c s).text_input = none ∧
    (new_level L c s).player_pts = [] ∧
    (new_level L c s).is_win = false ∧
    (new_level L c s).current_error = none ∧
    (new_level L c s).is_valid = s.is_valid ∧
    (new_level L c s).score = s.score ∧
    (new_level L c s).level = s.level ∧
    (new_level L c s).hints_available = s.hints_available ∧
    (new_level L c s).difficulty = get_difficulty_for_level s.level ∧
    pickTmpl s.level c ∈ FUNCTION_TEMPLATES (get_difficulty_for_level s.level) ∧
    (new_level L c s).target_formula = (pickTmpl s.level c).text ∧
    (new_level L c s).target_src = some (pickTmpl s.level c).tree ∧
    new_level L c s = calc_target L (resetForLevel c s) := by
  intro L c s
  obtain ⟨h1, h2, h3, h4, h5, h6, h7, h8, h9, h10, h11, _, _⟩ :=
    new_level_fields L c s
  exact ⟨h4, h3, h1, h2, h5, h10, h9, h11, h6, pickTmpl_mem s.level c, h7, h8, rfl⟩

/-- A state whose validity flag is `true` (as after any valid player edit, or
at session start). -/
def s7 : Simulation :=
  { x_range := (0, 10), nb_points := 400, target_formula := "x",
    target_src := some (Expr.name "x"), target_pts := [], player_pts := [(0, 0)],
    y_min := -5, y_max := 5, is_valid := true, is_win := false,
    text_input := some (Expr.name "x"), current_error := none,
    difficulty := "easy", level := 1, score := 0, hints_available := 3 }

/-- C7 counterexample: starting a new level from `s7` empties the player curve
but leaves the validity flag `true` — the claim's "reset the player Curve to
empty/invalid" fails in its "invalid" half: the flag is not reset. -/
theorem claim7_counterexample :
    (new_level mathStub 2 s7).player_pts = [] ∧
    (new_level mathStub 2 s7).is_valid = true ∧
    ¬ (new_level mathStub 2 s7).is_valid = false := by
  obtain ⟨_, _, hpts, _, hval, _⟩ := new_level_fields mathStub 2 s7
  have htrue : (new_level mathStub 2 s7).is_valid = true := hval
  refine ⟨hpts, htrue, ?_⟩
  rw [htrue]
  decide

theorem get_hint_budget (c : ℕ) (s : Simulation) :
    (get_hint c s).2.hints_available
      = if s.hints_available ≤ 0 then s.hints_available
        else s.hints_available - 1 := by
  rcases get_hint_snd c s with ⟨hle, heq⟩ | ⟨hpos, heq⟩ <;> rw [heq]
  · rw [if_pos hle]
  · rw [if_neg (by omega)]

theorem get_hint_none_iff (c : ℕ) (s : Simulation) :
    (get_hint c s).1 = none ↔ s.hints_available ≤ 0 := by
  unfold get_hint
  by_cases h : s.hints_available ≤ 0
  · rw [if_pos h]
    simpa using h
  · rw [if_neg h]
    dsimp only
    split <;> simp [h]

/-- C8 (confirmed): with a zero hint budget `get_hint` returns the
distinguishable `None` and changes nothing; with a positive budget it
decrements the budget by exactly one and returns a fact drawn from the
applicable facts about the target formula's composition, or the generic
fallback when none applies; from the initial budget of 3 the fourth
consecutive request returns `None`, and the budget is never negative in any
reachable state. -/
theorem claim8_hints :
    ∀ (s : Simulation) (c : ℕ),
    (s.hints_available ≤ 0 → get_hint c s = (none, s)) ∧
    (0 < s.hints_available →
      (get_hint c s).2 = { s with hints_available := s.hints_available - 1 } ∧
      ∃ msg, (get_hint c s).1 = some msg ∧
        (msg ∈ hintsFor s.target_formula ∨
          (hintsFor s.target_formula = [] ∧ msg = FALLBACK_HINT))) ∧
    (s.hints_available = 3 → ∀ c1 c2 c3 c4 : ℕ,
      (get_hint c4 ((get_hint c3 ((get_hint c2 ((get_hint c1 s).2)).2)).2)).1
        = none) ∧
    (∀ (L : MathFns) (s1 : Simulation), Reachable L s1 →
      0 ≤ s1.hints_available) := by
  intro s c
  refine ⟨?_, ?_, ?_, fun L s1 hr => reachable_hints_nonneg L s1 hr⟩
  · intro h
    unfold get_hint
    rw [if_pos h]
  · intro h
    rcases get_hint_snd c s with ⟨hle, _⟩ | ⟨_, heq⟩
    · omega
    · exact ⟨heq, get_hint_fst c s h⟩
  · intro h3 c1 c2 c3 c4
    have b1 : ((get_hint c1 s).2).hints_available = 2 := by
      rw [get_hint_budget, h3]
      norm_num
    have b2 : ((get_hint c2 ((get_hint c1 s).2)).2).hints_available = 1 := by
      rw [get_hint_budget, b1]
      norm_num
    have b3 : ((get_hint c3 ((get_hint c2 ((get_hint c1 s).2)).2)).2).hints_available
        = 0 := by
      rw [get_hint_budget, b2]
      norm_num
    rw [get_hint_none_iff, b3]

/-- A concrete state for the C8 witness: full budget of 3 hints, target
formula `"sin(x)"`. -/
def s8 : Simulation :=
  { x_range := (0, 10), nb_points := 400, target_formula := "sin(x)",
    target_src := some (Expr.call "sin" (Expr.name "x")), target_pts := [],
    player_pts := [], y_min := -5, y_max := 5, is_valid := true,
    is_win := false, text_input := none, current_error := none,
    difficulty := "easy", level := 1, score := 0, hints_available := 3 }

/-- C8 witness: the theorem applied at `s8` (budget 3): one request decrements
the budget to 2 and yields an applicable fact or the fallback; four
consecutive requests exhaust the budget and the fourth returns `None`; and the
budget of a freshly initialized session is non-negative. -/
theorem claim8_witness :
    ((get_hint 5 s8).2 = { s8 with hints_available := 2 } ∧
      ∃ msg, (get_hint 5 s8).1 = some msg ∧
        (msg ∈ hintsFor s8.target_formula ∨
          (hintsFor s8.target_formula = [] ∧ msg = FALLBACK_HINT))) ∧
    (get_hint 3 ((get_hint 2 ((get_hint 1 ((get_hint 0 s8).2)).2)).2)).1 = none ∧
    0 ≤ (Simulation.init mathStub 0).hints_available := by
  obtain ⟨hA, hB, hC, hD⟩ := claim8_hints s8 5
  obtain ⟨hsnd, hfst⟩ := hB (by with_unfolding_all decide)
  refine ⟨⟨hsnd, hfst⟩, ?_, ?_⟩
  · exact (claim8_hints s8 0).2.2.1 rfl 0 1 2 3
  · exact hD mathStub _ (Reachable.init 0)

/-- C9 (confirmed): `skip_level` is exactly "subtract the fixed penalty of 50
from the score, floored at zero, then perform the start-level transition";
in particular a starting score of 30 ends at exactly 0. -/
theorem claim9_skip_penalty :
    ∀ (L : MathFns) (c : ℕ) (s : Simulation),
    skip_level L c s
      = new_level L c { s with score := max 0 (s.score - SKIP_PENALTY) } ∧
    (skip_level L c { s with score := 30 }).score = 0 := by
  intro L c s
  refine ⟨rfl, ?_⟩
  have h := (new_level_fields L c
    { ({ s with score := 30 } : Simulation) with
        score := max 0 (({ s with score := 30 } : Simulation).score
          - SKIP_PENALTY) }).2.2.2.2.2.2.2.2.2.1
  calc (skip_level L c { s with score := 30 }).score
      = max 0 ((30 : ℤ) - SKIP_PENALTY) := h
    _ = 0 := by decide

/-- C10 (confirmed): when recomputing the target curve finds zero valid sample
points, `_calc_target` returns before any mutation: the stored target points
and the plotting y-range (indeed the whole state) keep their previous values,
so the stale target of the prior level persists. -/
theorem claim10_invalid_target_discarded :
    ∀ (L : MathFns) (s : Simulation),
    (calc_points L s.x_range s.nb_points s.target_src).valid = false →
    calc_target L s = s ∧
    (calc_target L s).target_pts = s.target_pts ∧
    (calc_target L s).y_min = s.y_min ∧
    (calc_target L s).y_max = s.y_max := by
  intro L s h
  have he : calc_target L s = s := by
    unfold calc_target
    dsimp only
    rw [h]
    with_unfolding_all rfl
  exact ⟨he, by rw [he], by rw [he], by rw [he]⟩

/-- A state whose target formula references the unregistered identifier `foo`,
so recomputing its target curve finds zero valid points; its stored target
curve and y-range come from a previous level. -/
def s10 : Simulation :=
  { x_range := (0, 10), nb_points := 400, target_formula := "foo(x)",
    target_src := some (Expr.call "foo" (Expr.name "x")),
    target_pts := [(0, 1)], player_pts := [], y_min := -7, y_max := 7,
    is_valid := true, is_win := false, text_input := none,
    current_error := none, difficulty := "easy", level := 1, score := 0,
    hints_available := 3 }

/-- C10 witness: the theorem applied at `s10`: the recomputation is invalid
and the stale target points `[(0, 1)]` and range `(-7, 7)` persist. -/
theorem claim10_witness :
    (calc_points mathStub s10.x_range s10.nb_points s10.target_src).valid
      = false ∧
    calc_target mathStub s10 = s10 ∧
    (calc_target mathStub s10).target_pts = [(0, 1)] ∧
    (calc_target mathStub s10).y_min = -7 ∧
    (calc_target mathStub s10).y_max = 7 := by
  have h : (calc_points mathStub s10.x_range s10.nb_points s10.target_src).valid
      = false := by
    with_unfolding_all decide
  obtain ⟨h1, h2, h3, h4⟩ := claim10_invalid_target_discarded mathStub s10 h
  refine ⟨h, h1, ?_, ?_, ?_⟩
  · rw [h1]
    with_unfolding_all rfl
  · rw [h1]
    with_unfolding_all rfl
  · rw [h1]
    with_unfolding_all rfl

end PlotingGame
